import Mathlib

set_option maxRecDepth 100000

/-!
Verification development for the `claude-observer` monitoring agent
(`src/roles/claude-observer/files/claude-observer.py`).

The Python program is embedded shallowly:

* network effects (the Prometheus HTTP query, the inference-collaborator
  call, the report file write) are modelled as explicit oracle functions
  returning `Except PyErr _`; an `Except.error` models the Python call
  raising an exception;
* the mutable field `self.historical_context` is passed explicitly:
  every analysis stage takes the store and returns the (possibly
  updated) store;
* each stage also returns the list of inference-collaborator
  invocations it performed (prompt text and `max_tokens` budget), so
  that call-count properties can be stated;
* `datetime.now()` is passed in as an explicit timestamp string.

Python-level `Dict` results of Prometheus queries are modelled by
`PromJson`; `\x7b\x7d` (the empty dict returned by `query_prometheus` on
failure, and the default of `metrics.get(name, \x7b\x7d)`) is
`PromJson.empty`.
-/

namespace ClaudeObserver

/-- Exceptions that the modelled effectful calls can raise. -/
inductive PyErr where
  | inferenceError : PyErr
  | queryError : PyErr
  | persistError : PyErr
deriving DecidableEq, Repr

/-- One element of a Prometheus query result list:
`\x7b"metric": labels, "value": [timestamp, value]\x7d`. -/
structure PromItem where
  metric : List (String × String)
  value : String × String
deriving DecidableEq, Repr

/-- A Prometheus query response as seen by the observer. `empty` is the
empty dict `\x7b\x7d` (returned by `query_prometheus` when the request
raised); `payload r` is `\x7b"data": \x7b"result": r\x7d\x7d`. -/
inductive PromJson where
  | empty : PromJson
  | payload : List PromItem → PromJson
deriving DecidableEq, Repr

/-- A metrics snapshot: the dict built by `get_cluster_metrics`,
modelled as an association list in insertion order. -/
abbrev MetricsSnapshot := List (String × PromJson)

/-- The Prometheus backend: executes one query string; `Except.error`
models the `requests.get`/`.json()` call raising. -/
abbrev Backend := String → Except PyErr PromJson

/-- `query_prometheus` (source lines 26-36): runs the query and returns
the parsed JSON; any exception is caught and the empty dict is
returned. -/
def query_prometheus (backend : Backend) (query : String) : PromJson :=
  match backend query with
  | .ok j => j
  | .error _ => PromJson.empty

/-- The fixed (category, query) pairs issued by `get_cluster_metrics`
(source lines 38-73), in source order. -/
def metricQueries : List (String × String) :=
  [ ("pod_cpu", "sum(rate(container_cpu_usage_seconds_total[5m])) by (pod, namespace)"),
    ("pod_memory", "sum(container_memory_usage_bytes) by (pod, namespace)"),
    ("node_cpu", "sum(rate(node_cpu_seconds_total\x7bmode!=\"idle\"\x7d[5m])) by (instance)"),
    ("node_memory", "node_memory_MemAvailable_bytes / node_memory_MemTotal_bytes"),
    ("pod_restarts", "increase(kube_pod_container_status_restarts_total[5m]) > 0"),
    ("http_latency", "histogram_quantile(0.99, rate(http_request_duration_seconds_bucket[5m]))"),
    ("hpa_replicas", "kube_horizontalpodautoscaler_status_current_replicas") ]

/-- `get_cluster_metrics` (source lines 38-73): one `query_prometheus`
call per fixed category, assembled into the snapshot dict. -/
def get_cluster_metrics (backend : Backend) : MetricsSnapshot :=
  metricQueries.map (fun nq => (nq.1, query_prometheus backend nq.2))

/-- `metrics.get(name, \x7b\x7d)`: dictionary lookup with empty-dict
default. -/
def pyGet (m : MetricsSnapshot) (name : String) : PromJson :=
  (m.lookup name).getD PromJson.empty

/-- Rendering of a Python label dict inside `_format_metrics`
(`f"  \x7bmetric\x7d: ..."`); the quoting of Python repr is elided. -/
def fmtLabels (labels : List (String × String)) : String :=
  "\x7b" ++ String.intercalate ", " (labels.map (fun kv => kv.1 ++ ": " ++ kv.2)) ++ "\x7d"

/-- `_format_metrics` (source lines 258-273): empty/`data`-less dict
renders as "No data available", an empty result list as "No metrics
found", otherwise one line per item (capped at 20). -/
def format_metrics (metric_data : PromJson) : String :=
  match metric_data with
  | .empty => "No data available"
  | .payload result =>
    if result.isEmpty then "No metrics found"
    else String.intercalate "\n"
      ((result.take 20).map (fun item => "  " ++ fmtLabels item.metric ++ ": " ++ item.value.2))

/-- One record of `self.historical_context` (source lines 125-129):
`\x7b"timestamp": ..., "metrics": ..., "analysis": ...\x7d`. -/
structure ObservationRecord where
  timestamp : String
  metrics : MetricsSnapshot
  analysis : String
deriving DecidableEq, Repr

/-- The historical context store, oldest record first. -/
abbrev HistoricalContext := List ObservationRecord

/-- The store update performed by `detect_anomalies` (source lines
125-133): `append`, then `pop(0)` when the length exceeds 10. -/
def appendCapped (store : HistoricalContext) (r : ObservationRecord) : HistoricalContext :=
  let s := store ++ [r]
  if s.length > 10 then s.tail else s

/-- `_format_historical_context` (source lines 275-285): the last 3
records, timestamp plus the first 200 characters of the stored
analysis. -/
def format_historical_context (store : HistoricalContext) : String :=
  if store.isEmpty then "No historical data yet"
  else String.intercalate "\n"
    ((store.drop (store.length - 3)).flatMap
      (fun e => ["\n[" ++ e.timestamp ++ "]", "Summary: " ++ e.analysis.take 200 ++ "..."]))

/-- `_format_historical_metrics` (source lines 287-298): every record,
timestamp plus the first 100 characters of its formatted `pod_cpu`
data. -/
def format_historical_metrics (store : HistoricalContext) : String :=
  if store.isEmpty then "No historical data"
  else String.intercalate "\n"
    (store.flatMap
      (fun e => ["\n[" ++ e.timestamp ++ "]",
                 "CPU: " ++ (format_metrics (pyGet e.metrics "pod_cpu")).take 100]))

/-- The inference collaborator (`self.claude_client.messages.create`):
takes the prompt and the `max_tokens` budget, returns the response text
or raises. -/
abbrev Collaborator := String → Nat → Except PyErr String

/-- Result of one analysis stage: the Python return value (`None` on
caught failure), the historical store after the stage, and the
collaborator invocations the stage performed. -/
structure StageResult where
  result : Option String
  store : HistoricalContext
  calls : List (String × Nat)
deriving DecidableEq, Repr

/-- The prompt built by `detect_anomalies` (source lines 79-113); the
constant task-description text is abbreviated, the structure and every
data dependency are kept. -/
def anomalyPrompt (ts : String) (metrics : MetricsSnapshot) (store : HistoricalContext) : String :=
  "Analyze the following Kubernetes cluster metrics for anomalies:\n\nTimestamp: " ++ ts
  ++ "\n\nCPU Usage (pods):\n" ++ format_metrics (pyGet metrics "pod_cpu")
  ++ "\n\nMemory Usage (pods):\n" ++ format_metrics (pyGet metrics "pod_memory")
  ++ "\n\nNode CPU:\n" ++ format_metrics (pyGet metrics "node_cpu")
  ++ "\n\nPod Restarts (last 5 min):\n" ++ format_metrics (pyGet metrics "pod_restarts")
  ++ "\n\nHTTP Latency (p99):\n" ++ format_metrics (pyGet metrics "http_latency")
  ++ "\n\nHistorical Context (last 3 checks):\n" ++ format_historical_context store
  ++ "\n\nTasks:\n1. Detect any anomalies\n2. Identify the severity\n"
  ++ "3. Suggest immediate actions if needed\n4. Provide context\n\n"
  ++ "Format your response as:\nANOMALIES DETECTED: yes/no\nSEVERITY: low/medium/high\n"
  ++ "DETAILS: [explanation]\nRECOMMENDED ACTIONS: [specific kubectl commands or config changes]"

/-- `detect_anomalies` (source lines 75-139): builds the prompt, calls
the collaborator with `max_tokens=2000`; on success stores one
`ObservationRecord` (capped at 10) and returns the analysis; on any
exception returns `None` with the store untouched. -/
def detect_anomalies (collab : Collaborator) (ts : String) (store : HistoricalContext)
    (metrics : MetricsSnapshot) : StageResult :=
  let context := anomalyPrompt ts metrics store
  match collab context 2000 with
  | .ok analysis =>
    { result := some analysis
      store := appendCapped store { timestamp := ts, metrics := metrics, analysis := analysis }
      calls := [(context, 2000)] }
  | .error _ => { result := none, store := store, calls := [(context, 2000)] }

/-- The prompt built by `predict_load` (source lines 147-168);
task-description text abbreviated as for `anomalyPrompt`. -/
def predictPrompt (ts : String) (metrics : MetricsSnapshot) (store : HistoricalContext) : String :=
  "Based on the following historical metrics, predict load patterns for the next hour:\n\n"
  ++ "Historical Data (last 30 minutes):\n" ++ format_historical_metrics store
  ++ "\n\nCurrent Time: " ++ ts
  ++ "\nCurrent Metrics:\n" ++ format_metrics (pyGet metrics "pod_cpu")
  ++ "\n\nTasks:\n1. Identify any patterns or trends\n2. Predict if load will change\n"
  ++ "3. Estimate confidence level\n4. Recommend if preemptive scaling is needed\n\n"
  ++ "Format:\nPREDICTION: [increase/decrease/stable]\nCONFIDENCE: [low/medium/high]\n"
  ++ "TIMEFRAME: [when the change is expected]\nRECOMMENDED ACTION: [scale up/down/maintain]"

/-- `predict_load` (source lines 141-181): returns `None` without any
collaborator call when the store holds fewer than 3 records; otherwise
calls the collaborator once with `max_tokens=1500`, returning `None` on
exception. Never modifies the store. -/
def predict_load (collab : Collaborator) (ts : String) (store : HistoricalContext)
    (metrics : MetricsSnapshot) : StageResult :=
  if store.length < 3 then { result := none, store := store, calls := [] }
  else
    let context := predictPrompt ts metrics store
    match collab context 1500 with
    | .ok text => { result := some text, store := store, calls := [(context, 1500)] }
    | .error _ => { result := none, store := store, calls := [(context, 1500)] }

/-- The prompt built by `recommend_optimizations` (source lines
186-203); reads only the snapshot. -/
def recommendPrompt (metrics : MetricsSnapshot) : String :=
  "Analyze the following Kubernetes cluster resource usage and provide optimization recommendations:\n\n"
  ++ "Pod Resource Usage:\nCPU: " ++ format_metrics (pyGet metrics "pod_cpu")
  ++ "\nMemory: " ++ format_metrics (pyGet metrics "pod_memory")
  ++ "\n\nNode Resources:\n" ++ format_metrics (pyGet metrics "node_cpu")
  ++ "\n\nTasks:\n1. Identify over-provisioned pods\n2. Identify under-provisioned pods\n"
  ++ "3. Suggest resource requests/limits changes\n4. Recommend pod placement improvements\n\n"
  ++ "Provide specific YAML patches that can be applied."

/-- `recommend_optimizations` (source lines 183-216): one collaborator
call with `max_tokens=2000`; `None` on exception; store untouched. -/
def recommend_optimizations (collab : Collaborator) (_ts : String) (store : HistoricalContext)
    (metrics : MetricsSnapshot) : StageResult :=
  let context := recommendPrompt metrics
  match collab context 2000 with
  | .ok text => { result := some text, store := store, calls := [(context, 2000)] }
  | .error _ => { result := none, store := store, calls := [(context, 2000)] }

/-- The prompt built by `check_ha_resilience` (source lines 223-243);
reads only the snapshot. -/
def haPrompt (metrics : MetricsSnapshot) : String :=
  "Analyze the high availability and resilience of the Kubernetes cluster:\n\n"
  ++ "Pod Restarts (last 5 min):\n" ++ format_metrics (pyGet metrics "pod_restarts")
  ++ "\n\nHPA Status:\n" ++ format_metrics (pyGet metrics "hpa_replicas")
  ++ "\n\nTasks:\n1. Identify pods with frequent restarts\n2. Check pod distribution\n"
  ++ "3. Verify HPA is functioning correctly\n4. Suggest resilience improvements\n\n"
  ++ "Focus on:\n- Single points of failure\n- Pods not managed by controllers\n"
  ++ "- Missing readiness/liveness probes\n- Inadequate replica counts"

/-- `check_ha_resilience` (source lines 218-256): one collaborator call
with `max_tokens=1500`; `None` on exception; store untouched. -/
def check_ha_resilience (collab : Collaborator) (_ts : String) (store : HistoricalContext)
    (metrics : MetricsSnapshot) : StageResult :=
  let context := haPrompt metrics
  match collab context 1500 with
  | .ok text => { result := some text, store := store, calls := [(context, 1500)] }
  | .error _ => { result := none, store := store, calls := [(context, 1500)] }

/-- Python truthiness-based default: `x or default` where `x` is an
`Optional[str]`. `None` and the empty string are falsy, so both select
the default. Used by `generate_report` (source lines 311, 316, 321,
326). -/
def pyOrStr (x : Option String) (default : String) : String :=
  match x with
  | some s => if s.isEmpty then default else s
  | none => default

/-- The `"=" * 60` separator line of the report. -/
def eq60 : String := String.mk (List.replicate 60 (Char.ofNat 61))

/-- The 62-character horizontal rule of the report banner
(`U+2550`). -/
def hbar : String := String.mk (List.replicate 62 (Char.ofNat 9552))

/-- The report banner (source lines 303-306). -/
def reportHeader (ts : String) : String :=
  "\n╔" ++ hbar ++ "╗"
  ++ "\n║          Claude Observer - Cluster Analysis Report           ║"
  ++ "\n║                  " ++ ts ++ "                    ║"
  ++ "\n╚" ++ hbar ++ "╝\n\n"

/-- One report section (source lines 308-327): separator, title,
separator, body. -/
def sectionBlock (title : String) (body : String) : String :=
  eq60 ++ "\n" ++ title ++ "\n" ++ eq60 ++ "\n" ++ body ++ "\n\n"

/-- The closing line of the report (source line 328). -/
def reportFooter : String := "╚" ++ hbar ++ "╝\n"

/-- `generate_report` (source lines 300-331): the four stage outputs
rendered with their per-stage placeholders via Python `or`. -/
def generate_report (ts : String) (anomalies predictions recommendations ha_check : Option String) :
    String :=
  reportHeader ts
  ++ sectionBlock "ANOMALY DETECTION" (pyOrStr anomalies "No analysis available")
  ++ sectionBlock "LOAD PREDICTION" (pyOrStr predictions "Insufficient historical data")
  ++ sectionBlock "RESOURCE RECOMMENDATIONS" (pyOrStr recommendations "No recommendations at this time")
  ++ sectionBlock "HIGH AVAILABILITY CHECK" (pyOrStr ha_check "No HA issues detected")
  ++ reportFooter

/-- The report persistence effect: the `open(...).write(report)` at
source lines 371-372. `Except.error` models the write raising
(e.g. `OSError`). -/
abbrev Persist := String → Except PyErr Unit

/-- One iteration of the `while True` loop in `run` (source lines
343-375): gather metrics, run the four stages in order, generate the
report, write it. There is **no** `try/except` in `run`, so an
exception raised by the report write propagates (modelled by the
`Except.error` return) and terminates the loop and the process. On
success, returns the report text and the store for the next
iteration. -/
def runCycle (backend : Backend) (collab : Collaborator) (persist : Persist) (ts : String)
    (store : HistoricalContext) : Except PyErr (String × HistoricalContext) :=
  let metrics := get_cluster_metrics backend
  let a := detect_anomalies collab ts store metrics
  let p := predict_load collab ts a.store metrics
  let r := recommend_optimizations collab ts a.store metrics
  let h := check_ha_resilience collab ts a.store metrics
  let report := generate_report ts a.result p.result r.result h.result
  match persist report with
  | .ok _ => .ok (report, a.store)
  | .error e => .error e

/-- `small` occurs as a contiguous substring of `big`. -/
def containsStr (big small : String) : Prop :=
  ∃ before after : String, big = before ++ small ++ after

/-- Concrete fixture: a Prometheus backend on which every query
raises. -/
def failBackend : Backend := fun _ => Except.error PyErr.queryError

/-- Concrete fixture: the snapshot gathered when every query fails
(every category is the empty dict). -/
def m0 : MetricsSnapshot := get_cluster_metrics failBackend

/-- Concrete fixture: a distinguishable historical record. -/
def mkRec (i : Nat) : ObservationRecord :=
  { timestamp := toString i, metrics := [], analysis := "a" }

/-- Concrete fixture: a store holding `n` records in chronological
order. -/
def storeOf (n : Nat) : HistoricalContext := (List.range n).map mkRec

/-- Concrete fixture: a collaborator that always answers. -/
def okCollab : Collaborator := fun _ _ => Except.ok "ANALYSIS"

/-- Concrete fixture: report persistence that always succeeds. -/
def persistOk : Persist := fun _ => Except.ok ()

/-- Concrete fixture: a collaborator on which every call raises. -/
def failCollab : Collaborator := fun _ _ => Except.error PyErr.inferenceError

/-- Concrete fixture: a collaborator that fails exactly on the anomaly
prompt built from timestamp "t", snapshot `m0` and store `s`, and
answers every other prompt — i.e. it differs from `okCollab` only in
the anomaly-detection stage's outcome for that cycle. -/
def anomFailCollab (s : HistoricalContext) : Collaborator :=
  fun p _ =>
    if p = anomalyPrompt "t" m0 s then Except.error PyErr.inferenceError else Except.ok "ANALYSIS"

/-! ### Helper lemmas -/

/-- The capped append never lets the store exceed 10 records. -/
lemma appendCapped_length_le (s : HistoricalContext) (r : ObservationRecord)
    (h : s.length ≤ 10) : (appendCapped s r).length ≤ 10 := by
  unfold appendCapped
  by_cases h10 : (s ++ [r]).length > 10
  · simp only [h10, if_pos]
    simp [List.length_tail, List.length_append] at *
    omega
  · simp only [h10, if_neg, if_false]
    simp [List.length_append] at *
    omega

/-- Closed form of the capped append on a within-capacity store. -/
lemma appendCapped_eq_drop (s : HistoricalContext) (r : ObservationRecord)
    (h : s.length ≤ 10) : appendCapped s r = (s ++ [r]).drop (s.length + 1 - 10) := by
  unfold appendCapped
  by_cases h10 : (s ++ [r]).length > 10
  · simp only [h10, if_pos]
    have hlen : s.length = 10 := by simp [List.length_append] at h10; omega
    rw [hlen]
    simp [List.drop_one]
  · simp only [h10, if_neg, if_false]
    have : s.length + 1 - 10 = 0 := by simp [List.length_append] at h10; omega
    rw [this, List.drop_zero]

/-- Folding the capped append over a record sequence keeps exactly the
last ten of (initial store ++ appended records). -/
lemma foldl_appendCapped (rs : List ObservationRecord) :
    ∀ s : HistoricalContext, s.length ≤ 10 →
      List.foldl appendCapped s rs = (s ++ rs).drop (s.length + rs.length - 10) := by
  induction rs with
  | nil =>
    intro s h
    simp only [List.foldl_nil, List.append_nil, List.length_nil, Nat.add_zero]
    have h0 : s.length - 10 = 0 := by omega
    rw [h0, List.drop_zero]
  | cons r rs ih =>
    intro s h
    have hlen := appendCapped_length_le s r h
    have hstep := appendCapped_eq_drop s r h
    have hle : s.length + 1 - 10 ≤ (s ++ [r]).length := by
      simp [List.length_append]
      omega
    have hlen2 : (appendCapped s r).length = s.length + 1 - (s.length + 1 - 10) := by
      rw [hstep, List.length_drop]
      simp [List.length_append]
    rw [List.foldl_cons, ih _ hlen, hlen2, hstep,
      ← List.drop_append_of_le_length hle, List.drop_drop]
    rw [show (s ++ [r]) ++ rs = s ++ r :: rs from by simp]
    congr 1
    simp only [List.length_cons]
    omega

/-- Substring containment survives prepending. -/
lemma containsStr_append_left (u s v : String) (h : containsStr s v) :
    containsStr (u ++ s) v := by
  obtain ⟨b, a, hh⟩ := h
  exact ⟨u ++ b, a, by rw [hh]; simp [String.append_assoc]⟩

/-- Substring containment survives appending. -/
lemma containsStr_append_right (s w v : String) (h : containsStr s v) :
    containsStr (s ++ w) v := by
  obtain ⟨b, a, hh⟩ := h
  exact ⟨b, a ++ w, by rw [hh]; simp [String.append_assoc]⟩

/-- A section body occurs in its section block. -/
lemma containsStr_sectionBlock (t b : String) : containsStr (sectionBlock t b) b :=
  ⟨eq60 ++ "\n" ++ t ++ "\n" ++ eq60 ++ "\n", "\n\n", by simp [sectionBlock, String.append_assoc]⟩

/-- Each rendered stage body occurs in the generated report. -/
lemma report_contains_bodies (ts : String) (a p r hc : Option String) :
    containsStr (generate_report ts a p r hc) (pyOrStr a "No analysis available") ∧
    containsStr (generate_report ts a p r hc) (pyOrStr p "Insufficient historical data") ∧
    containsStr (generate_report ts a p r hc) (pyOrStr r "No recommendations at this time") ∧
    containsStr (generate_report ts a p r hc) (pyOrStr hc "No HA issues detected") := by
  unfold generate_report
  refine ⟨?_, ?_, ?_, ?_⟩
  · apply containsStr_append_right
    apply containsStr_append_right
    apply containsStr_append_right
    apply containsStr_append_right
    apply containsStr_append_left
    exact containsStr_sectionBlock _ _
  · apply containsStr_append_right
    apply containsStr_append_right
    apply containsStr_append_right
    apply containsStr_append_left
    exact containsStr_sectionBlock _ _
  · apply containsStr_append_right
    apply containsStr_append_right
    apply containsStr_append_left
    exact containsStr_sectionBlock _ _
  · apply containsStr_append_right
    apply containsStr_append_left
    exact containsStr_sectionBlock _ _

/-- Python `or` keeps a non-empty string. -/
lemma pyOrStr_of_ne (s d : String) (h : s ≠ "") : pyOrStr (some s) d = s := by
  unfold pyOrStr
  have hne : ¬ (s.isEmpty = true) := fun hh => h ((String.isEmpty_iff s).mp hh)
  have hfalse : s.isEmpty = false := by
    revert hne
    cases s.isEmpty <;> simp
  simp [hfalse]

/-- The generated report is never the empty string. -/
lemma generate_report_ne_empty (ts : String) (a p r hc : Option String) :
    generate_report ts a p r hc ≠ "" := by
  intro h
  have hlen := congrArg String.length h
  simp only [generate_report, reportFooter, String.length_append] at hlen
  have h1 : ("╚" : String).length = 1 := by decide
  have h0 : ("" : String).length = 0 := rfl
  omega

/-! ### Claim theorems -/

/-- C1: the spec claims every exception of a cycle — including a
report-write failure — is caught so the loop never terminates. The code
is wrong: `run` (source lines 333-375) has no `try/except` around the
cycle body, so when the report write (source lines 371-372) raises, the
exception propagates out of the `while True` loop and kills the
process: for every backend, collaborator, store and timestamp, a
persistence failure makes `runCycle` end in that error instead of
completing the cycle. -/
theorem C1_persist_failure_crashes_loop (backend : Backend) (collab : Collaborator)
    (e : PyErr) (ts : String) (store : HistoricalContext) :
    runCycle backend collab (fun _ => Except.error e) ts store = Except.error e := rfl

/-- C2 (amended): one `ObservationRecord` is appended per cycle **iff**
the anomaly-detection collaborator call succeeds; the record holds the
snapshot and the anomaly analysis only (not the other stages' outputs),
and it is appended during the anomaly stage. With a succeeding report
write, the cycle's resulting store is `appendCapped store record` when
the anomaly call returns an analysis, and the unchanged store when it
raises. -/
theorem C2_record_appended_iff_anomaly_succeeds (backend : Backend) (collab : Collaborator)
    (persist : Persist) (ts : String) (store : HistoricalContext)
    (hp : ∀ rep, persist rep = Except.ok ()) :
    (∀ a, collab (anomalyPrompt ts (get_cluster_metrics backend) store) 2000 = Except.ok a →
      (runCycle backend collab persist ts store).map (fun x => x.2)
        = Except.ok (appendCapped store
            { timestamp := ts, metrics := get_cluster_metrics backend, analysis := a })) ∧
    (∀ e, collab (anomalyPrompt ts (get_cluster_metrics backend) store) 2000 = Except.error e →
      (runCycle backend collab persist ts store).map (fun x => x.2) = Except.ok store) := by
  constructor
  · intro a ha
    simp [runCycle, detect_anomalies, ha, hp, Except.map]
  · intro e he
    simp [runCycle, detect_anomalies, he, hp, Except.map]

/-- Witness for C2: a concrete cycle whose anomaly-detection call
succeeds appends exactly the one record built from the snapshot and the
analysis. -/
theorem C2_witness :
    (runCycle failBackend okCollab persistOk "t" []).map (fun x => x.2)
      = Except.ok (appendCapped []
          { timestamp := "t", metrics := m0, analysis := "ANALYSIS" }) :=
  (C2_record_appended_iff_anomaly_succeeds failBackend okCollab persistOk "t" []
    (fun _ => rfl)).1 "ANALYSIS" rfl

/-- Counterexample to C2 as stated: in a full cycle (all four stages
run, report persisted) whose anomaly-detection collaborator call fails,
**no** `ObservationRecord` is appended — starting from the empty store,
the store is still empty after the cycle, not of length one. -/
theorem C2_counterexample_no_record_on_anomaly_failure :
    (runCycle failBackend (anomFailCollab []) persistOk "t" []).map (fun x => x.2)
      = Except.ok ([] : HistoricalContext) := rfl

/-- C3 (amended): whichever stage's collaborator call fails, that stage
degrades to `None` and leaves the historical store unchanged, and every
remaining stage still executes its collaborator call (the load
prediction exactly when the store is warm, the other two always). The
cycle's `ObservationRecord`, however, is appended only when the
**anomaly-detection** call succeeds: an anomaly-call failure means no
record is appended (the append happens only inside a successful
`detect_anomalies`), while failures in the other three stages cannot
affect the append, since the cycle's final store is always exactly the
anomaly stage's store. -/
theorem C3_stage_failure_isolated (collab : Collaborator) (ts : String)
    (store : HistoricalContext) (metrics : MetricsSnapshot) :
    (∀ e, collab (anomalyPrompt ts metrics store) 2000 = Except.error e →
      (detect_anomalies collab ts store metrics).result = none ∧
      (detect_anomalies collab ts store metrics).store = store ∧
      (predict_load collab ts store metrics).calls.length
        = (if store.length < 3 then 0 else 1) ∧
      (recommend_optimizations collab ts store metrics).calls.length = 1 ∧
      (check_ha_resilience collab ts store metrics).calls.length = 1) ∧
    (∀ e, collab (predictPrompt ts metrics store) 1500 = Except.error e →
      (predict_load collab ts store metrics).result = none ∧
      (predict_load collab ts store metrics).store = store ∧
      (recommend_optimizations collab ts store metrics).calls.length = 1 ∧
      (check_ha_resilience collab ts store metrics).calls.length = 1) ∧
    (∀ e, collab (recommendPrompt metrics) 2000 = Except.error e →
      (recommend_optimizations collab ts store metrics).result = none ∧
      (recommend_optimizations collab ts store metrics).store = store ∧
      (check_ha_resilience collab ts store metrics).calls.length = 1) ∧
    (∀ e, collab (haPrompt metrics) 1500 = Except.error e →
      (check_ha_resilience collab ts store metrics).result = none ∧
      (check_ha_resilience collab ts store metrics).store = store) ∧
    (∀ backend : Backend, ∀ persist : Persist, (∀ rep, persist rep = Except.ok ()) →
      (runCycle backend collab persist ts store).map (fun x => x.2)
        = Except.ok (detect_anomalies collab ts store (get_cluster_metrics backend)).store) := by
  refine ⟨?_, ?_, ?_, ?_, ?_⟩
  · intro e h
    refine ⟨?_, ?_, ?_, ?_, ?_⟩
    · simp [detect_anomalies, h]
    · simp [detect_anomalies, h]
    · unfold predict_load
      by_cases h3 : store.length < 3
      · simp [h3]
      · simp only [h3, if_false]
        cases hc : collab (predictPrompt ts metrics store) 1500 <;> simp [hc]
    · unfold recommend_optimizations
      cases hc : collab (recommendPrompt metrics) 2000 <;> simp [hc]
    · unfold check_ha_resilience
      cases hc : collab (haPrompt metrics) 1500 <;> simp [hc]
  · intro e h
    refine ⟨?_, ?_, ?_, ?_⟩
    · unfold predict_load
      by_cases h3 : store.length < 3
      · simp [h3]
      · simp only [h3, if_false]
        simp [h]
    · unfold predict_load
      by_cases h3 : store.length < 3
      · simp [h3]
      · simp only [h3, if_false]
        simp [h]
    · unfold recommend_optimizations
      cases hc : collab (recommendPrompt metrics) 2000 <;> simp [hc]
    · unfold check_ha_resilience
      cases hc : collab (haPrompt metrics) 1500 <;> simp [hc]
  · intro e h
    refine ⟨?_, ?_, ?_⟩
    · simp [recommend_optimizations, h]
    · simp [recommend_optimizations, h]
    · unfold check_ha_resilience
      cases hc : collab (haPrompt metrics) 1500 <;> simp [hc]
  · intro e h
    exact ⟨by simp [check_ha_resilience, h], by simp [check_ha_resilience, h]⟩
  · intro backend persist hp
    simp [runCycle, hp, Except.map]

/-- Witness for C3: concrete warm store of three records and a
collaborator on which **every** call fails, so each of the theorem's
per-stage hypotheses is discharged at once: every stage degrades to
`None` while still performing its call (one call each, the anomaly
failure included), the store stays untouched, and the full cycle's
resulting store is the anomaly stage's (unchanged) store. -/
theorem C3_witness :
    (detect_anomalies failCollab "t" (storeOf 3) m0).result = none ∧
    (detect_anomalies failCollab "t" (storeOf 3) m0).store = storeOf 3 ∧
    (predict_load failCollab "t" (storeOf 3) m0).result = none ∧
    (predict_load failCollab "t" (storeOf 3) m0).calls.length = 1 ∧
    (recommend_optimizations failCollab "t" (storeOf 3) m0).result = none ∧
    (recommend_optimizations failCollab "t" (storeOf 3) m0).calls.length = 1 ∧
    (check_ha_resilience failCollab "t" (storeOf 3) m0).result = none ∧
    (check_ha_resilience failCollab "t" (storeOf 3) m0).calls.length = 1 ∧
    (runCycle failBackend failCollab persistOk "t" (storeOf 3)).map (fun x => x.2)
      = Except.ok (detect_anomalies failCollab "t" (storeOf 3) m0).store := by
  have h := C3_stage_failure_isolated failCollab "t" (storeOf 3) m0
  have ha := h.1 PyErr.inferenceError rfl
  have hb := h.2.1 PyErr.inferenceError rfl
  have hc := h.2.2.1 PyErr.inferenceError rfl
  have hd := h.2.2.2.1 PyErr.inferenceError rfl
  have he := h.2.2.2.2 failBackend persistOk (fun _ => rfl)
  refine ⟨ha.1, ha.2.1, hb.1, ?_, hc.1, ha.2.2.2.1, hd.1, ha.2.2.2.2, he⟩
  simpa [storeOf] using ha.2.2.1

/-- Counterexample to C3 as stated: a full cycle over a warm three
record store whose anomaly-detection collaborator call fails completes,
but its `ObservationRecord` is **not** appended — the store after the
cycle is the unchanged three-record store. -/
theorem C3_counterexample_record_not_appended :
    (runCycle failBackend (anomFailCollab (storeOf 3)) persistOk "t" (storeOf 3)).map
      (fun x => x.2) = Except.ok (storeOf 3) := rfl

/-- C4: `predict_load` performs no collaborator call and returns `None`
(rendered as "Insufficient historical data" by the report) whenever the
store holds fewer than 3 records, and performs exactly one collaborator
call — with the load-prediction prompt and the 1500-token budget —
whenever the store holds 3 or more records. -/
theorem C4_predict_load_gating (collab : Collaborator) (ts : String)
    (store : HistoricalContext) (metrics : MetricsSnapshot) :
    (store.length < 3 →
      predict_load collab ts store metrics
        = { result := none, store := store, calls := [] }) ∧
    (3 ≤ store.length →
      (predict_load collab ts store metrics).calls
        = [(predictPrompt ts metrics store, 1500)]) := by
  constructor
  · intro h3
    simp [predict_load, h3]
  · intro h3
    have h3' : ¬ store.length < 3 := by omega
    unfold predict_load
    simp only [h3', if_false]
    cases hc : collab (predictPrompt ts metrics store) 1500 <;> simp

/-- Witness for C4: with an empty store no call is made and the result
is `None`; with a three-record store exactly one call is made. -/
theorem C4_witness :
    predict_load okCollab "t" [] m0 = { result := none, store := [], calls := [] } ∧
    (predict_load okCollab "t" (storeOf 3) m0).calls
      = [(predictPrompt "t" m0 (storeOf 3), 1500)] :=
  ⟨(C4_predict_load_gating okCollab "t" [] m0).1 (by decide),
   (C4_predict_load_gating okCollab "t" (storeOf 3) m0).2 (by simp [storeOf])⟩

/-- C5 (amended): starting from an empty store of capacity 10, after
appending 15 records the store holds exactly the **10** most recently
appended records (the 5 oldest are evicted), in chronological order —
not "the 5 most recently appended" as the claim states. -/
theorem C5_capacity_retains_last_ten (rs : List ObservationRecord) (h : rs.length = 15) :
    List.foldl appendCapped [] rs = rs.drop 5 ∧
    (List.foldl appendCapped [] rs).length = 10 := by
  have hfold := foldl_appendCapped rs [] (by simp)
  simp only [List.nil_append, List.length_nil, Nat.zero_add] at hfold
  rw [h] at hfold
  constructor
  · simpa using hfold
  · rw [hfold, List.length_drop, h]

/-- Witness for C5: fifteen concrete distinct records. -/
theorem C5_witness :
    List.foldl appendCapped [] ((List.range 15).map mkRec)
      = ((List.range 15).map mkRec).drop 5 ∧
    (List.foldl appendCapped [] ((List.range 15).map mkRec)).length = 10 :=
  C5_capacity_retains_last_ten ((List.range 15).map mkRec) (by simp)

/-- Counterexample to C5 as stated: after appending 15 concrete records
the retained records are not "exactly the 5 most recently appended" —
the store differs from the last-five suffix (it holds ten records, the
sixth-to-fifteenth appended). -/
theorem C5_counterexample_not_only_five_retained :
    List.foldl appendCapped [] ((List.range 15).map mkRec)
      ≠ ((List.range 15).map mkRec).drop 10 := by
  decide

/-- C6: the store invariant of the capped append (source lines
125-133): starting within capacity, the store stays within capacity;
insertion appends the new record at the tail, and when the store is
full the eviction removes exactly the oldest record from the head —
both equations preserve the chronological (append) order of the
retained records. -/
theorem C6_store_invariant (s : HistoricalContext) (r : ObservationRecord)
    (h : s.length ≤ 10) :
    (appendCapped s r).length ≤ 10 ∧
    (s.length < 10 → appendCapped s r = s ++ [r]) ∧
    (s.length = 10 → appendCapped s r = s.tail ++ [r]) := by
  refine ⟨appendCapped_length_le s r h, ?_, ?_⟩
  · intro h10
    rw [appendCapped_eq_drop s r h]
    have h0 : s.length + 1 - 10 = 0 := by omega
    rw [h0, List.drop_zero]
  · intro h10
    rw [appendCapped_eq_drop s r h, h10]
    have h1 : (10 : Nat) + 1 - 10 = 1 := rfl
    rw [h1, List.drop_one]
    cases s with
    | nil => simp at h10
    | cons x xs => simp

/-- Witness for C6: a concrete full store of ten records evicts its
head on append. -/
theorem C6_witness :
    (appendCapped (storeOf 10) (mkRec 10)).length ≤ 10 ∧
    appendCapped (storeOf 10) (mkRec 10) = (storeOf 10).tail ++ [mkRec 10] := by
  have h := C6_store_invariant (storeOf 10) (mkRec 10) (by simp [storeOf])
  exact ⟨h.1, h.2.2 (by simp [storeOf])⟩

/-- C7 (amended): `generate_report` is total and returns non-empty text
for every combination of stage outputs; each section shows the stage's
text verbatim when it is present **and non-empty**, and shows the
stage's fixed placeholder when the stage output is absent **or the
empty string** (Python `or` treats the empty string as falsy, so a
present-but-empty text renders the placeholder, not the verbatim empty
text). The placeholders are per-stage: "No analysis available",
"Insufficient historical data", "No recommendations at this time",
"No HA issues detected". -/
theorem C7_report_total_with_placeholders (ts : String) (a p r hc : Option String) :
    generate_report ts a p r hc ≠ "" ∧
    (∀ s, a = some s → s ≠ "" → containsStr (generate_report ts a p r hc) s) ∧
    ((a = none ∨ a = some "") →
      containsStr (generate_report ts a p r hc) "No analysis available") ∧
    (∀ s, p = some s → s ≠ "" → containsStr (generate_report ts a p r hc) s) ∧
    ((p = none ∨ p = some "") →
      containsStr (generate_report ts a p r hc) "Insufficient historical data") ∧
    (∀ s, r = some s → s ≠ "" → containsStr (generate_report ts a p r hc) s) ∧
    ((r = none ∨ r = some "") →
      containsStr (generate_report ts a p r hc) "No recommendations at this time") ∧
    (∀ s, hc = some s → s ≠ "" → containsStr (generate_report ts a p r hc) s) ∧
    ((hc = none ∨ hc = some "") →
      containsStr (generate_report ts a p r hc) "No HA issues detected") := by
  refine ⟨generate_report_ne_empty ts a p r hc, ?_, ?_, ?_, ?_, ?_, ?_, ?_, ?_⟩
  · intro s hs hne
    subst hs
    have ca := (report_contains_bodies ts (some s) p r hc).1
    rwa [pyOrStr_of_ne s _ hne] at ca
  · rintro (rfl | rfl)
    · exact (report_contains_bodies ts none p r hc).1
    · exact (report_contains_bodies ts (some "") p r hc).1
  · intro s hs hne
    subst hs
    have cp := (report_contains_bodies ts a (some s) r hc).2.1
    rwa [pyOrStr_of_ne s _ hne] at cp
  · rintro (rfl | rfl)
    · exact (report_contains_bodies ts a none r hc).2.1
    · exact (report_contains_bodies ts a (some "") r hc).2.1
  · intro s hs hne
    subst hs
    have cr := (report_contains_bodies ts a p (some s) hc).2.2.1
    rwa [pyOrStr_of_ne s _ hne] at cr
  · rintro (rfl | rfl)
    · exact (report_contains_bodies ts a p none hc).2.2.1
    · exact (report_contains_bodies ts a p (some "") hc).2.2.1
  · intro s hs hne
    subst hs
    have ch := (report_contains_bodies ts a p r (some s)).2.2.2
    rwa [pyOrStr_of_ne s _ hne] at ch
  · rintro (rfl | rfl)
    · exact (report_contains_bodies ts a p r none).2.2.2
    · exact (report_contains_bodies ts a p r (some "")).2.2.2

/-- Witness for C7: a concrete report with a present non-empty anomaly
text, an absent prediction, a present-but-empty recommendation, and an
absent HA check. -/
theorem C7_witness :
    generate_report "t" (some "X") none (some "") none ≠ "" ∧
    containsStr (generate_report "t" (some "X") none (some "") none) "X" ∧
    containsStr (generate_report "t" (some "X") none (some "") none)
      "Insufficient historical data" ∧
    containsStr (generate_report "t" (some "X") none (some "") none)
      "No recommendations at this time" ∧
    containsStr (generate_report "t" (some "X") none (some "") none)
      "No HA issues detected" := by
  have h := C7_report_total_with_placeholders "t" (some "X") none (some "") none
  exact ⟨h.1, h.2.1 "X" rfl (by decide), h.2.2.2.2.1 (Or.inl rfl),
    h.2.2.2.2.2.2.1 (Or.inr rfl), h.2.2.2.2.2.2.2.2 (Or.inl rfl)⟩

/-- Counterexample to C7 as stated: with a present but empty anomaly
text the report is identical to the all-absent report and shows the
anomaly placeholder — not the stage's (empty) text verbatim. -/
theorem C7_counterexample_empty_text_renders_placeholder :
    generate_report "t" (some "") none none none
      = generate_report "t" none none none none ∧
    containsStr (generate_report "t" (some "") none none none) "No analysis available" :=
  ⟨rfl, (report_contains_bodies "t" (some "") none none none).1⟩

/-- C8: `get_cluster_metrics` always returns the full snapshot with its
seven fixed categories in order (it is a total function: no single
query failure can abort the snapshot), every category is mapped to the
result of its own `query_prometheus` call, and any category whose
backend query raises is mapped to the empty result. -/
theorem C8_snapshot_degrades_per_query (backend : Backend) :
    (get_cluster_metrics backend).map Prod.fst
      = ["pod_cpu", "pod_memory", "node_cpu", "node_memory",
         "pod_restarts", "http_latency", "hpa_replicas"] ∧
    (∀ name q, (name, q) ∈ metricQueries →
      (name, query_prometheus backend q) ∈ get_cluster_metrics backend) ∧
    (∀ name q e, (name, q) ∈ metricQueries → backend q = Except.error e →
      (name, PromJson.empty) ∈ get_cluster_metrics backend) := by
  refine ⟨?_, ?_, ?_⟩
  · simp [get_cluster_metrics, metricQueries]
  · intro name q hmem
    exact List.mem_map_of_mem _ hmem
  · intro name q e hmem herr
    have hq : query_prometheus backend q = PromJson.empty := by
      unfold query_prometheus
      rw [herr]
    rw [← hq]
    exact List.mem_map_of_mem _ hmem

/-- Witness for C8: with a backend on which every query raises, the
snapshot still has all seven categories and maps `pod_cpu` to the empty
result. -/
theorem C8_witness :
    ("pod_cpu", PromJson.empty) ∈ get_cluster_metrics failBackend ∧
    (get_cluster_metrics failBackend).map Prod.fst
      = ["pod_cpu", "pod_memory", "node_cpu", "node_memory",
         "pod_restarts", "http_latency", "hpa_replicas"] := by
  have h := C8_snapshot_degrades_per_query failBackend
  exact ⟨h.2.2 "pod_cpu"
    "sum(rate(container_cpu_usage_seconds_total[5m])) by (pod, namespace)"
    PyErr.queryError (by decide) rfl, h.1⟩

/-- C9 (amended): the resource-recommendation and HA-check stages read
only the cycle's snapshot — their result and collaborator invocation
are independent of the historical store, hence unchanged between two
runs differing only in the anomaly stage's outcome. The claim's stronger
statement is false for load prediction: `detect_anomalies` appends to
the store before `predict_load` reads it, so `predict_load` sees the
store as mutated within the same cycle, not "as it stood at the start
of the cycle" (see the counterexample). -/
theorem C9_later_stages_read_snapshot_only (collab : Collaborator) (ts : String)
    (metrics : MetricsSnapshot) (s1 s2 : HistoricalContext) :
    (recommend_optimizations collab ts s1 metrics).result
      = (recommend_optimizations collab ts s2 metrics).result ∧
    (recommend_optimizations collab ts s1 metrics).calls
      = (recommend_optimizations collab ts s2 metrics).calls ∧
    (check_ha_resilience collab ts s1 metrics).result
      = (check_ha_resilience collab ts s2 metrics).result ∧
    (check_ha_resilience collab ts s1 metrics).calls
      = (check_ha_resilience collab ts s2 metrics).calls := by
  refine ⟨?_, ?_, ?_, ?_⟩
  · unfold recommend_optimizations
    cases hc : collab (recommendPrompt metrics) 2000 <;> simp [hc]
  · unfold recommend_optimizations
    cases hc : collab (recommendPrompt metrics) 2000 <;> simp [hc]
  · unfold check_ha_resilience
    cases hc : collab (haPrompt metrics) 1500 <;> simp [hc]
  · unfold check_ha_resilience
    cases hc : collab (haPrompt metrics) 1500 <;> simp [hc]

/-- Counterexample to C9 as stated: two cycles over the same two-record
store and snapshot, with collaborators that differ **only** on the
anomaly prompt of that cycle (`anomFailCollab` answers every other
prompt exactly as `okCollab` does). When the anomaly call succeeds the
store `predict_load` reads has 3 records and it invokes the
collaborator once; when the anomaly call fails the store still has 2
records and `predict_load` makes no invocation — so the
load-prediction stage's behavior does depend on a sibling stage's
outcome. -/
theorem C9_counterexample_prediction_depends_on_anomaly_outcome :
    (predict_load okCollab "t"
      (detect_anomalies okCollab "t" (storeOf 2) m0).store m0).calls.length = 1 ∧
    (predict_load (anomFailCollab (storeOf 2)) "t"
      (detect_anomalies (anomFailCollab (storeOf 2)) "t" (storeOf 2) m0).store
      m0).calls.length = 0 :=
  ⟨rfl, rfl⟩

/-- C10: only `detect_anomalies` ever modifies the historical context
store, and only when its collaborator call succeeds — appending exactly
one record via the capped append; on collaborator failure it leaves the
store unchanged, and `predict_load`, `recommend_optimizations` and
`check_ha_resilience` leave the store unchanged in every call
(`generate_report` takes only the four stage outputs and is a pure
function of them by construction — it cannot touch the store). -/
theorem C10_only_detect_anomalies_writes_store (collab : Collaborator) (ts : String)
    (store : HistoricalContext) (metrics : MetricsSnapshot) :
    (predict_load collab ts store metrics).store = store ∧
    (recommend_optimizations collab ts store metrics).store = store ∧
    (check_ha_resilience collab ts store metrics).store = store ∧
    (∀ a, collab (anomalyPrompt ts metrics store) 2000 = Except.ok a →
      (detect_anomalies collab ts store metrics).store
        = appendCapped store { timestamp := ts, metrics := metrics, analysis := a }) ∧
    (∀ e, collab (anomalyPrompt ts metrics store) 2000 = Except.error e →
      (detect_anomalies collab ts store metrics).store = store) := by
  refine ⟨?_, ?_, ?_, ?_, ?_⟩
  · unfold predict_load
    by_cases h3 : store.length < 3
    · simp [h3]
    · simp only [h3, if_false]
      cases hc : collab (predictPrompt ts metrics store) 1500 <;> simp [hc]
  · unfold recommend_optimizations
    cases hc : collab (recommendPrompt metrics) 2000 <;> simp [hc]
  · unfold check_ha_resilience
    cases hc : collab (haPrompt metrics) 1500 <;> simp [hc]
  · intro a ha
    simp [detect_anomalies, ha]
  · intro e he
    simp [detect_anomalies, he]

/-- Witness for C10: on a concrete successful cycle start, prediction
leaves the store unchanged and anomaly detection appends its one
record. -/
theorem C10_witness :
    (predict_load okCollab "t" [] m0).store = [] ∧
    (detect_anomalies okCollab "t" [] m0).store
      = appendCapped [] { timestamp := "t", metrics := m0, analysis := "ANALYSIS" } := by
  have h := C10_only_detect_anomalies_writes_store okCollab "t" [] m0
  exact ⟨h.1, h.2.2.2.1 "ANALYSIS" rfl⟩

end ClaudeObserver
